import Mathlib

/-!
Verification of `driver_version.hpp` from the karabiner-driverkit vendor tree.

The header declares a single strong-typedef value type `value_t` wrapping a
`uint64_t` driver-version number, with

  * the inherited `strong_typedef` constructor and `type_safe::get` accessor,
  * an equality operator from the `strong_typedef_op::equality_comparison`
    mixin and relational operators from the
    `strong_typedef_op::relational_comparison` mixin (both compare the
    underlying integers; the `type_safe` library headers are not part of the
    provided source slice, so those mixins are modelled from the spec),
  * a hand-written three-way comparison `operator<=>` delegating to the
    underlying `uint64_t` comparison (driver_version.hpp lines 16-18),
  * a stream-insertion operator printing `type_safe::get(value)`
    (driver_version.hpp lines 21-23); the decimal formatting that
    `std::ostream` applies to a `uint64_t` is modelled from the spec,
  * the constant `embedded_driver_version(10800)` (driver_version.hpp line 26).

Machine integers are modelled as `Nat` with the 64-bit range `a < 2 ^ 64`
stated as a hypothesis where a claim quantifies over 64-bit values; none of
the operations in the header perform arithmetic, so no wrap-around can occur.
-/

namespace driver_version

/-- The `value_t` strong typedef: a record holding the raw `uint64_t` payload.
Mirrors `struct value_t : type_safe::strong_typedef<value_t, uint64_t>`. -/
structure value_t where
  value : Nat

/-- Modelled from the spec: the inherited `strong_typedef` constructor
(`using strong_typedef::strong_typedef;`, body in the `type_safe` library,
not in the source slice) stores the given integer exactly, with no
transformation or validation. -/
def construct (a : Nat) : value_t := ⟨a⟩

/-- Modelled from the spec: `type_safe::get` (library code, not in the source
slice) returns the underlying integer exactly as stored; this is the
`Unwrap` operation. -/
def get (v : value_t) : Nat := v.value

/-- Modelled from the spec: `operator==` supplied by the
`strong_typedef_op::equality_comparison<value_t>` mixin (library code, not in
the source slice): true iff the underlying integers are equal. -/
def eqOp (a b : value_t) : Bool := get a == get b

/-- Modelled from the spec: `operator<` supplied by the
`strong_typedef_op::relational_comparison<value_t>` mixin (library code, not
in the source slice): underlying `<`. -/
def ltOp (a b : value_t) : Bool := Nat.blt (get a) (get b)

/-- Modelled from the spec: `operator<=` from the `relational_comparison`
mixin: underlying `<=`. -/
def leOp (a b : value_t) : Bool := Nat.ble (get a) (get b)

/-- Modelled from the spec: `operator>` from the `relational_comparison`
mixin: underlying `>`. -/
def gtOp (a b : value_t) : Bool := Nat.blt (get b) (get a)

/-- Modelled from the spec: `operator>=` from the `relational_comparison`
mixin: underlying `>=`. -/
def geOp (a b : value_t) : Bool := Nat.ble (get b) (get a)

/-- The hand-written three-way comparison, driver_version.hpp lines 16-18:
`type_safe::get(*this) <=> type_safe::get(other)`. On unsigned integers the
C++ `<=>` yields `less` when the left value is smaller, `equivalent` when the
values are equal, and `greater` otherwise. -/
def compareOp (a b : value_t) : Ordering :=
  if get a < get b then Ordering.lt
  else if get a = get b then Ordering.eq
  else Ordering.gt

/-- The constant at driver_version.hpp line 26:
`constexpr value_t embedded_driver_version(10800);`. -/
def embedded_driver_version : value_t := construct 10800

/-!
State-passing forms of the `const` member-operator calls. A C++ method call
receives the object; a `const` method cannot modify it, so the translation
returns the object unchanged alongside the result. These are used to state
the frame property (the payload survives every operation unchanged).
-/

/-- Method-call form of `Unwrap`: result paired with the post-call object. -/
def unwrapCall (v : value_t) : Nat × value_t := (get v, v)

/-- Method-call form of `operator==`: result paired with the post-call
objects (receiver and argument). -/
def equalsCall (a b : value_t) : Bool × value_t × value_t := (eqOp a b, a, b)

/-- Method-call form of `operator<=>`: result paired with the post-call
objects. -/
def compareCall (a b : value_t) : Ordering × value_t × value_t :=
  (compareOp a b, a, b)

/-- The character for one decimal digit `d < 10`: code point `48 + d`. -/
def digitChar (d : Nat) : Char := Char.ofNat (48 + d)

/-- Fuel-indexed decimal digit emitter: prepends the decimal digits of `n`
(most significant first) onto `acc`, consuming one unit of fuel per digit.
With fuel `n + 1` the fuel never runs out. -/
def toDecCore : Nat → Nat → List Char → List Char
  | 0, _, acc => acc
  | fuel + 1, n, acc =>
    if n < 10 then digitChar n :: acc
    else toDecCore fuel (n / 10) (digitChar (n % 10) :: acc)

/-- The decimal digit characters of `n`, most significant first. -/
def decString (n : Nat) : List Char := toDecCore (n + 1) n []

/-- Modelled from the spec: the decimal formatting that `std::ostream`
applies to a `uint64_t`. The `operator<<` at driver_version.hpp lines 21-23
streams `type_safe::get(value)`; the library formatting it delegates to
renders the canonical base-10 digits of that integer and nothing else. This
is the `ToText` operation. -/
def toText (v : value_t) : String := String.mk (decString (get v))

/-- Method-call form of `ToText`: result paired with the post-call object. -/
def toTextCall (v : value_t) : String × value_t := (toText v, v)

/-- Interpretation of a digit string back as a number: standard left fold,
`decValue "10800" = 10800`. Used to pin down what `toText` renders. -/
def decValue (s : String) : Nat :=
  s.data.foldl (fun a c => a * 10 + (c.toNat - 48)) 0

/-- Characterisation of the canonical base-10 rendering of `n`: nonempty,
only digit characters, no leading zero (a string starting with the zero
digit must be exactly the one-character string for zero), and it reads back
as `n`. These conditions determine the string uniquely. -/
def IsCanonicalDecimal (n : Nat) (s : String) : Prop :=
  s.data ≠ [] ∧
  (∀ c ∈ s.data, '0' ≤ c ∧ c ≤ '9') ∧
  (s.data.head? = some '0' → s = "0") ∧
  decValue s = n

/-- Helper: the boolean mixin operators restated as propositions on the
underlying integers. -/
theorem eqOp_eq_true_iff (a b : value_t) : eqOp a b = true ↔ get a = get b := by
  simp [eqOp]

theorem ltOp_eq_true_iff (a b : value_t) : ltOp a b = true ↔ get a < get b := by
  simp [ltOp, Nat.blt_eq]

theorem leOp_eq_true_iff (a b : value_t) : leOp a b = true ↔ get a ≤ get b := by
  simp [leOp, Nat.ble_eq]

theorem gtOp_eq_true_iff (a b : value_t) : gtOp a b = true ↔ get b < get a := by
  simp [gtOp, Nat.blt_eq]

theorem geOp_eq_true_iff (a b : value_t) : geOp a b = true ↔ get b ≤ get a := by
  simp [geOp, Nat.ble_eq]

theorem eqOp_eq_false_iff (a b : value_t) : eqOp a b = false ↔ get a ≠ get b := by
  simp [eqOp]

theorem ltOp_eq_false_iff (a b : value_t) : ltOp a b = false ↔ ¬ get a < get b := by
  rw [← Bool.not_eq_true, ltOp_eq_true_iff]

theorem gtOp_eq_false_iff (a b : value_t) : gtOp a b = false ↔ ¬ get b < get a := by
  rw [← Bool.not_eq_true, gtOp_eq_true_iff]

/-- Helper: the three possible results of `compareOp`, characterised on the
underlying integers. -/
theorem compareOp_eq_lt_iff (a b : value_t) :
    compareOp a b = Ordering.lt ↔ get a < get b := by
  unfold compareOp
  split_ifs with h1 h2 <;> simp_all <;> omega

theorem compareOp_eq_eq_iff (a b : value_t) :
    compareOp a b = Ordering.eq ↔ get a = get b := by
  unfold compareOp
  split_ifs with h1 h2 <;> simp_all <;> omega

theorem compareOp_eq_gt_iff (a b : value_t) :
    compareOp a b = Ordering.gt ↔ get b < get a := by
  unfold compareOp
  split_ifs with h1 h2 <;> simp_all <;> omega

/-- C1: for all 64-bit unsigned integers `a` and `b`,
`Compare(Construct(a), Construct(b))` returns less, equal, or greater exactly
according to the unsigned-integer comparison of `a` and `b`: less iff
`a < b`, equal iff `a = b`, greater iff `a > b`. -/
theorem compare_construct_matches_unsigned_comparison
    (a b : Nat) (ha : a < 2 ^ 64) (hb : b < 2 ^ 64) :
    (compareOp (construct a) (construct b) = Ordering.lt ↔ a < b) ∧
    (compareOp (construct a) (construct b) = Ordering.eq ↔ a = b) ∧
    (compareOp (construct a) (construct b) = Ordering.gt ↔ b < a) :=
  ⟨compareOp_eq_lt_iff (construct a) (construct b),
   compareOp_eq_eq_iff (construct a) (construct b),
   compareOp_eq_gt_iff (construct a) (construct b)⟩

/-- Witness for C1 at `a = 10799`, `b = 10800`. -/
theorem compare_construct_matches_unsigned_comparison_witness :
    (compareOp (construct 10799) (construct 10800) = Ordering.lt ↔ 10799 < 10800) ∧
    (compareOp (construct 10799) (construct 10800) = Ordering.eq ↔ 10799 = 10800) ∧
    (compareOp (construct 10799) (construct 10800) = Ordering.gt ↔ 10800 < 10799) :=
  compare_construct_matches_unsigned_comparison 10799 10800 (by decide) (by decide)

/-- C2: for all 64-bit unsigned integers `a` and `b`,
`Construct(a).Equals(Construct(b))` is true iff `a = b`, and `Equals` is
reflexive, symmetric, and transitive on all `value_t` values. -/
theorem equals_construct_iff_and_equivalence
    (a b : Nat) (ha : a < 2 ^ 64) (hb : b < 2 ^ 64) :
    (eqOp (construct a) (construct b) = true ↔ a = b) ∧
    (∀ v : value_t, eqOp v v = true) ∧
    (∀ v w : value_t, eqOp v w = true → eqOp w v = true) ∧
    (∀ u v w : value_t, eqOp u v = true → eqOp v w = true → eqOp u w = true) := by
  refine ⟨eqOp_eq_true_iff (construct a) (construct b), ?_, ?_, ?_⟩
  · intro v
    simp [eqOp_eq_true_iff]
  · intro v w h
    rw [eqOp_eq_true_iff] at h ⊢
    exact h.symm
  · intro u v w h1 h2
    rw [eqOp_eq_true_iff] at h1 h2 ⊢
    exact h1.trans h2

/-- Witness for C2 at `a = b = 10800`, with the symmetry and transitivity
parts applied at concrete tags. -/
theorem equals_construct_iff_and_equivalence_witness :
    (eqOp (construct 10800) (construct 10800) = true ↔ (10800 : Nat) = 10800) ∧
    eqOp (construct 5) (construct 5) = true ∧
    eqOp (construct 7) (construct 7) = true :=
  ⟨(equals_construct_iff_and_equivalence 10800 10800 (by decide) (by decide)).1,
   (equals_construct_iff_and_equivalence 10800 10800 (by decide) (by decide)).2.2.1
     (construct 5) (construct 5) (by decide),
   (equals_construct_iff_and_equivalence 10800 10800 (by decide) (by decide)).2.2.2
     (construct 7) (construct 7) (construct 7) (by decide) (by decide)⟩

/-- C3: for every 64-bit unsigned integer `a`, `Construct(a).Unwrap() = a`:
construction stores the value exactly and `Unwrap` returns it exactly. -/
theorem unwrap_construct_roundtrip (a : Nat) (ha : a < 2 ^ 64) :
    get (construct a) = a := rfl

/-- Witness for C3 at `a = 18446744073709551615` (the largest 64-bit value). -/
theorem unwrap_construct_roundtrip_witness :
    get (construct 18446744073709551615) = 18446744073709551615 :=
  unwrap_construct_roundtrip 18446744073709551615 (by decide)

/-- C4: the constant `embedded_driver_version` is `construct 10800` and its
unwrapped payload is exactly 10800. -/
theorem embedded_driver_version_is_10800 :
    embedded_driver_version = construct 10800 ∧
    get embedded_driver_version = 10800 :=
  ⟨rfl, rfl⟩

/-- C5: the ordering is a total order: `≤` (from the relational mixin) is
transitive, and for every pair exactly one of the three relational outcomes
`<`, `=`, `>` holds, matching the three-way comparison. -/
theorem ordering_total_and_transitive (a b c : value_t) :
    (leOp a b = true → leOp b c = true → leOp a c = true) ∧
    ((ltOp a b = true ∧ eqOp a b = false ∧ gtOp a b = false ∧
        compareOp a b = Ordering.lt) ∨
     (ltOp a b = false ∧ eqOp a b = true ∧ gtOp a b = false ∧
        compareOp a b = Ordering.eq) ∨
     (ltOp a b = false ∧ eqOp a b = false ∧ gtOp a b = true ∧
        compareOp a b = Ordering.gt)) := by
  constructor
  · intro h1 h2
    rw [leOp_eq_true_iff] at h1 h2 ⊢
    exact le_trans h1 h2
  · rcases Nat.lt_trichotomy (get a) (get b) with h | h | h
    · exact Or.inl ⟨(ltOp_eq_true_iff a b).mpr h,
        (eqOp_eq_false_iff a b).mpr (Nat.ne_of_lt h),
        (gtOp_eq_false_iff a b).mpr (Nat.lt_asymm h),
        (compareOp_eq_lt_iff a b).mpr h⟩
    · exact Or.inr (Or.inl ⟨(ltOp_eq_false_iff a b).mpr (by rw [h]; exact Nat.lt_irrefl _),
        (eqOp_eq_true_iff a b).mpr h,
        (gtOp_eq_false_iff a b).mpr (by rw [h]; exact Nat.lt_irrefl _),
        (compareOp_eq_eq_iff a b).mpr h⟩)
    · exact Or.inr (Or.inr ⟨(ltOp_eq_false_iff a b).mpr (Nat.lt_asymm h),
        (eqOp_eq_false_iff a b).mpr (Nat.ne_of_lt h).symm,
        (gtOp_eq_true_iff a b).mpr h,
        (compareOp_eq_gt_iff a b).mpr h⟩)

/-- Witness for C5 at the tags 3, 5, 7, discharging the two transitivity
hypotheses concretely. -/
theorem ordering_total_and_transitive_witness :
    leOp (construct 3) (construct 7) = true ∧
    ((ltOp (construct 3) (construct 5) = true ∧
        eqOp (construct 3) (construct 5) = false ∧
        gtOp (construct 3) (construct 5) = false ∧
        compareOp (construct 3) (construct 5) = Ordering.lt) ∨
     (ltOp (construct 3) (construct 5) = false ∧
        eqOp (construct 3) (construct 5) = true ∧
        gtOp (construct 3) (construct 5) = false ∧
        compareOp (construct 3) (construct 5) = Ordering.eq) ∨
     (ltOp (construct 3) (construct 5) = false ∧
        eqOp (construct 3) (construct 5) = false ∧
        gtOp (construct 3) (construct 5) = true ∧
        compareOp (construct 3) (construct 5) = Ordering.gt)) :=
  ⟨(ordering_total_and_transitive (construct 3) (construct 5) (construct 7)).1
     (by decide) (by decide),
   (ordering_total_and_transitive (construct 3) (construct 5) (construct 7)).2⟩

/-- C8: frame property: every method call (`Unwrap`, `Equals`, `Compare`)
returns its receiver and argument objects unchanged, payload included; a
`value_t` never changes value once created. -/
theorem operations_preserve_payload (v w : value_t) :
    (unwrapCall v).2 = v ∧ get (unwrapCall v).2 = get v ∧
    (equalsCall v w).2.1 = v ∧ (equalsCall v w).2.2 = w ∧
    get (equalsCall v w).2.1 = get v ∧ get (equalsCall v w).2.2 = get w ∧
    (compareCall v w).2.1 = v ∧ (compareCall v w).2.2 = w ∧
    get (compareCall v w).2.1 = get v ∧ get (compareCall v w).2.2 = get w ∧
    (toTextCall v).2 = v ∧ get (toTextCall v).2 = get v :=
  ⟨rfl, rfl, rfl, rfl, rfl, rfl, rfl, rfl, rfl, rfl, rfl, rfl⟩

/-- Witness for C8 at the tags 1 and 2. -/
theorem operations_preserve_payload_witness :
    (unwrapCall (construct 1)).2 = construct 1 ∧
    (equalsCall (construct 1) (construct 2)).2.1 = construct 1 ∧
    (toTextCall (construct 1)).2 = construct 1 :=
  ⟨(operations_preserve_payload (construct 1) (construct 2)).1,
   (operations_preserve_payload (construct 1) (construct 2)).2.2.1,
   (operations_preserve_payload (construct 1) (construct 2)).2.2.2.2.2.2.2.2.2.2.1⟩

/-- C9: construction is deterministic and tags have pure value semantics: two
tags built from the same integer are `Equals`, and any two tags that are
`Equals` are interchangeable in every `Equals` and `Compare` against any
third tag. -/
theorem value_semantics_no_hidden_identity (a : Nat) (ha : a < 2 ^ 64) :
    eqOp (construct a) (construct a) = true ∧
    construct a = construct a ∧
    (∀ v₁ v₂ : value_t, eqOp v₁ v₂ = true →
      ∀ c : value_t,
        eqOp v₁ c = eqOp v₂ c ∧ eqOp c v₁ = eqOp c v₂ ∧
        compareOp v₁ c = compareOp v₂ c ∧ compareOp c v₁ = compareOp c v₂) := by
  refine ⟨(eqOp_eq_true_iff _ _).mpr rfl, rfl, ?_⟩
  intro v₁ v₂ h c
  have hv : get v₁ = get v₂ := (eqOp_eq_true_iff v₁ v₂).mp h
  refine ⟨?_, ?_, ?_, ?_⟩ <;> simp only [eqOp, compareOp, hv]

/-- Witness for C9 at `a = 10800`, with the interchangeability part applied
to the two constructed tags and a third tag 42. -/
theorem value_semantics_no_hidden_identity_witness :
    eqOp (construct 10800) (construct 10800) = true ∧
    eqOp (construct 10800) (construct 42) = eqOp (construct 10800) (construct 42) :=
  ⟨(value_semantics_no_hidden_identity 10800 (by decide)).1,
   ((value_semantics_no_hidden_identity 10800 (by decide)).2.2
      (construct 10800) (construct 10800) (by decide) (construct 42)).1⟩

/-- C10: the two comparison paths on `value_t` agree: the mixin equality
holds iff the hand-written `operator<=>` returns equal, and each mixin
relational operator orders the pair exactly as `operator<=>` does. -/
theorem mixin_operators_agree_with_spaceship (a b : value_t) :
    (eqOp a b = true ↔ compareOp a b = Ordering.eq) ∧
    (ltOp a b = true ↔ compareOp a b = Ordering.lt) ∧
    (gtOp a b = true ↔ compareOp a b = Ordering.gt) ∧
    (leOp a b = true ↔ compareOp a b ≠ Ordering.gt) ∧
    (geOp a b = true ↔ compareOp a b ≠ Ordering.lt) := by
  refine ⟨?_, ?_, ?_, ?_, ?_⟩
  · rw [eqOp_eq_true_iff, compareOp_eq_eq_iff]
  · rw [ltOp_eq_true_iff, compareOp_eq_lt_iff]
  · rw [gtOp_eq_true_iff, compareOp_eq_gt_iff]
  · rw [leOp_eq_true_iff]
    constructor
    · intro h hgt
      exact Nat.not_lt.mpr h ((compareOp_eq_gt_iff a b).mp hgt)
    · intro h
      exact Nat.not_lt.mp (fun hlt => h ((compareOp_eq_gt_iff a b).mpr hlt))
  · rw [geOp_eq_true_iff]
    constructor
    · intro h hlt
      exact Nat.not_lt.mpr h ((compareOp_eq_lt_iff a b).mp hlt)
    · intro h
      exact Nat.not_lt.mp (fun hlt => h ((compareOp_eq_lt_iff a b).mpr hlt))

/-- Helper: every decimal digit yields a character between the zero digit
and the nine digit. -/
theorem digitChar_bounds : ∀ d, d < 10 → ('0' ≤ digitChar d ∧ digitChar d ≤ '9') := by
  decide

/-- Helper: a positive decimal digit never yields the zero character. -/
theorem digitChar_ne_zero : ∀ d, d < 10 → 0 < d → digitChar d ≠ '0' := by
  decide

/-- Helper: the numeric value of a digit character. -/
theorem digitChar_toNat : ∀ d, d < 10 → (digitChar d).toNat = 48 + d := by
  decide

/-- Helper: the accumulator appends to the emitted digits. -/
theorem toDecCore_append (fuel : Nat) :
    ∀ n acc, toDecCore fuel n acc = toDecCore fuel n [] ++ acc := by
  induction fuel with
  | zero =>
    intro n acc
    simp [toDecCore]
  | succ fuel ih =>
    intro n acc
    by_cases h : n < 10
    · simp [toDecCore, h]
    · simp only [toDecCore, if_neg h]
      rw [ih (n / 10) (digitChar (n % 10) :: acc), ih (n / 10) [digitChar (n % 10)]]
      simp

/-- Helper: any sufficient amount of fuel gives the same output. -/
theorem toDecCore_fuel (f₁ : Nat) :
    ∀ f₂ n acc, n < f₁ → n < f₂ → toDecCore f₁ n acc = toDecCore f₂ n acc := by
  induction f₁ with
  | zero =>
    intro f₂ n acc h1 _
    omega
  | succ f ih =>
    intro f₂ n acc h1 h2
    match f₂, h2 with
    | g + 1, h2 =>
      by_cases h : n < 10
      · simp [toDecCore, h]
      · simp only [toDecCore, if_neg h]
        have hd : n / 10 < n := Nat.div_lt_self (by omega) (by omega)
        exact ih g (n / 10) (digitChar (n % 10) :: acc) (by omega) (by omega)

/-- Helper: digits of a single-digit number. -/
theorem decString_of_lt {n : Nat} (h : n < 10) : decString n = [digitChar n] := by
  simp [decString, toDecCore, h]

/-- Helper: digits of a multi-digit number: digits of the quotient followed
by the last digit. -/
theorem decString_step {n : Nat} (h : 10 ≤ n) :
    decString n = decString (n / 10) ++ [digitChar (n % 10)] := by
  have hd : n / 10 < n := Nat.div_lt_self (by omega) (by omega)
  have h1 : toDecCore (n + 1) n [] = toDecCore n (n / 10) [digitChar (n % 10)] := by
    simp [toDecCore, Nat.not_lt.mpr h]
  have h2 : toDecCore n (n / 10) [digitChar (n % 10)]
      = toDecCore (n / 10 + 1) (n / 10) [digitChar (n % 10)] :=
    toDecCore_fuel n (n / 10 + 1) (n / 10) [digitChar (n % 10)] hd (Nat.lt_succ_self _)
  show toDecCore (n + 1) n [] = decString (n / 10) ++ [digitChar (n % 10)]
  rw [h1, h2, toDecCore_append (n / 10 + 1) (n / 10) [digitChar (n % 10)]]
  rfl

/-- Helper: the digit list is never empty. -/
theorem decString_ne_nil (n : Nat) : decString n ≠ [] := by
  by_cases h : n < 10
  · simp [decString_of_lt h]
  · rw [decString_step (Nat.not_lt.mp h)]
    simp

/-- Helper: every emitted character is a digit character. -/
theorem decString_digits (n : Nat) : ∀ c ∈ decString n, '0' ≤ c ∧ c ≤ '9' := by
  induction n using Nat.strong_induction_on with
  | _ n ih =>
    by_cases h : n < 10
    · rw [decString_of_lt h]
      intro c hc
      rw [List.mem_singleton] at hc
      subst hc
      exact digitChar_bounds n h
    · rw [decString_step (Nat.not_lt.mp h)]
      intro c hc
      rcases List.mem_append.mp hc with hc | hc
      · exact ih (n / 10) (Nat.div_lt_self (by omega) (by omega)) c hc
      · rw [List.mem_singleton] at hc
        subst hc
        exact digitChar_bounds (n % 10) (Nat.mod_lt _ (by omega))

/-- Helper: for a positive number the leading character is not the zero
digit. -/
theorem decString_head_ne_zero (n : Nat) (hn : 0 < n) :
    ∀ c, (decString n).head? = some c → c ≠ '0' := by
  induction n using Nat.strong_induction_on with
  | _ n ih =>
    intro c hc
    by_cases h : n < 10
    · rw [decString_of_lt h] at hc
      simp only [List.head?_cons, Option.some.injEq] at hc
      subst hc
      exact digitChar_ne_zero n h hn
    · obtain ⟨x, xs, he⟩ :=
        List.exists_cons_of_ne_nil (decString_ne_nil (n / 10))
      rw [decString_step (Nat.not_lt.mp h), he] at hc
      simp only [List.cons_append, List.head?_cons, Option.some.injEq] at hc
      subst hc
      have hpos : 0 < n / 10 := Nat.div_pos (Nat.not_lt.mp h) (by omega)
      exact ih (n / 10) (Nat.div_lt_self (by omega) (by omega)) hpos x
        (by rw [he]; rfl)

/-- Helper: folding the digits back up recovers the number. -/
theorem decString_foldl (n : Nat) :
    List.foldl (fun a c => a * 10 + (c.toNat - 48)) 0 (decString n) = n := by
  induction n using Nat.strong_induction_on with
  | _ n ih =>
    by_cases h : n < 10
    · rw [decString_of_lt h]
      simp only [List.foldl_cons, List.foldl_nil]
      rw [digitChar_toNat n h]
      omega
    · rw [decString_step (Nat.not_lt.mp h), List.foldl_append]
      rw [ih (n / 10) (Nat.div_lt_self (by omega) (by omega))]
      simp only [List.foldl_cons, List.foldl_nil]
      rw [digitChar_toNat (n % 10) (Nat.mod_lt _ (by omega))]
      omega

/-- C6: for every tag, `ToText` renders exactly the canonical base-10
decimal representation of its payload and nothing else: nonempty, only digit
characters, no leading zero, reading back as the payload; in particular
`Construct(10800).ToText()` is the string 10800. -/
theorem to_text_renders_canonical_decimal :
    (∀ v : value_t, IsCanonicalDecimal (get v) (toText v)) ∧
    toText (construct 10800) = "10800" := by
  constructor
  · intro v
    refine ⟨decString_ne_nil (get v), decString_digits (get v), ?_, decString_foldl (get v)⟩
    intro h0
    rcases Nat.eq_zero_or_pos (get v) with hz | hp
    · show String.mk (decString (get v)) = "0"
      rw [hz]
      decide
    · exact absurd rfl (decString_head_ne_zero (get v) hp '0' h0)
  · decide

/-- Witness for C6 at the tag 10800. -/
theorem to_text_renders_canonical_decimal_witness :
    IsCanonicalDecimal (get (construct 10800)) (toText (construct 10800)) :=
  to_text_renders_canonical_decimal.1 (construct 10800)

/-- C7: every operation is total with no reachable error branch: `Construct`
accepts any 64-bit value without validation and stores it exactly, the
boolean operators return one of the two booleans, the three-way comparison
returns one of its three outcomes, and `ToText` always returns a nonempty
string. -/
theorem operations_total_no_error (a : Nat) (ha : a < 2 ^ 64) (x y : value_t) :
    get (construct a) = a ∧
    (eqOp x y = true ∨ eqOp x y = false) ∧
    (ltOp x y = true ∨ ltOp x y = false) ∧
    (leOp x y = true ∨ leOp x y = false) ∧
    (compareOp x y = Ordering.lt ∨ compareOp x y = Ordering.eq ∨
      compareOp x y = Ordering.gt) ∧
    (toText x).data ≠ [] := by
  refine ⟨rfl, ?_, ?_, ?_, ?_, decString_ne_nil (get x)⟩
  · cases eqOp x y
    · exact Or.inr rfl
    · exact Or.inl rfl
  · cases ltOp x y
    · exact Or.inr rfl
    · exact Or.inl rfl
  · cases leOp x y
    · exact Or.inr rfl
    · exact Or.inl rfl
  · cases h : compareOp x y
    · exact Or.inl rfl
    · exact Or.inr (Or.inl rfl)
    · exact Or.inr (Or.inr rfl)

/-- Witness for C7 at `a = 0` and the tags 1 and 2. -/
theorem operations_total_no_error_witness :
    get (construct 0) = 0 ∧
    (eqOp (construct 1) (construct 2) = true ∨ eqOp (construct 1) (construct 2) = false) ∧
    (ltOp (construct 1) (construct 2) = true ∨ ltOp (construct 1) (construct 2) = false) ∧
    (leOp (construct 1) (construct 2) = true ∨ leOp (construct 1) (construct 2) = false) ∧
    (compareOp (construct 1) (construct 2) = Ordering.lt ∨
      compareOp (construct 1) (construct 2) = Ordering.eq ∨
      compareOp (construct 1) (construct 2) = Ordering.gt) ∧
    (toText (construct 1)).data ≠ [] :=
  operations_total_no_error 0 (by decide) (construct 1) (construct 2)

/-- Witness for C10 at the tags 3 and 4. -/
theorem mixin_operators_agree_with_spaceship_witness :
    (eqOp (construct 3) (construct 4) = true ↔
      compareOp (construct 3) (construct 4) = Ordering.eq) ∧
    (ltOp (construct 3) (construct 4) = true ↔
      compareOp (construct 3) (construct 4) = Ordering.lt) :=
  ⟨(mixin_operators_agree_with_spaceship (construct 3) (construct 4)).1,
   (mixin_operators_agree_with_spaceship (construct 3) (construct 4)).2.1⟩

end driver_version
